import Mathlib

/-!
Shallow embedding of the billions-attestations-examples scripts.

The repository is a set of TypeScript CLI scripts orchestrating an
authenticate-then-attest flow against four contracts plus a paginated
HTTP read API.  The network, the zero-knowledge proof source, and the
contracts are external collaborators: they are modelled here as an
explicit environment record whose fields are the values the code would
observe from them, and every network interaction the code performs is
recorded in a trace so that claims about "no write happened" or "before
any network call" are statable.

Numbers that are JavaScript `bigint`s are modelled as `Nat`; the review
star values (JavaScript `number`) are modelled as `ℚ`.
-/

namespace Billions

/-- A network operation performed by the scripts, in order.  Reads and
writes against the contracts are distinguished so that idempotency
claims ("no write transaction") can be stated. -/
inductive NetOp where
  | getSchema (schemaId : String)
  | getDefaultIdType
  | getIdByAddress
  | authMethodExistsCheck
  | submitAuthResponse
  | recordAttestation
  | getAttestationRead (id : Nat)
  | isValidRead (id : Nat)
  deriving DecidableEq, Repr

/-- The write transactions among the network operations:
`authVerifier.submitResponse` and `attestationRegistry.recordAttestation`. -/
def NetOp.isWrite : NetOp → Bool
  | .submitAuthResponse => true
  | .recordAttestation => true
  | _ => false

/-- The error outcomes of the scripts.  Each constructor corresponds to a
`throw new Error(...)` site in the source; the surrounding try/catch
blocks only re-wrap the message text, so the originating site identifies
the error. -/
inductive ScriptError where
  | InvalidSchemaFormat
  | SchemaNotFound (schemaId : String)
  | ProofGenerationFailed
  | AuthMethodUnavailable
  | AuthenticationIneffective
  | RecordIdMissing
  | MissingReviewField
  deriving DecidableEq, Repr

/-- Everything `checkAuthenticationAuthV2` observes from its external
collaborators, in one record:
* `schemaRecordId` — the `id` field of `schemaRegistry.getSchema(schemaId)`;
* `localUserId` — `DID.idFromDID(userDID).bigInt()` for the freshly created
  in-memory identity (the identity creation uses a random key, so this value
  is an unconstrained input of each invocation);
* `idByAddress` — `authVerifier.getIdByAddress(signerAddress)` at the first
  query;
* `authMethodKnown` — the result of `authVerifier.authMethodExists("authV2")`;
* `proofOk` — whether proof generation and transaction submission succeed
  (any failure there is fatal);
* `idByAddressAfterAuth` — `authVerifier.getIdByAddress(signerAddress)`
  re-queried after the authentication transaction was included. -/
structure AuthEnv where
  schemaRecordId : String
  localUserId : Nat
  idByAddress : Nat
  authMethodKnown : Bool
  proofOk : Bool
  idByAddressAfterAuth : Nat
  deriving DecidableEq, Repr

/-- JavaScript `s.startsWith("0x")`: the first two characters are `0`
and `x`. -/
def jsStartsWith0x (s : String) : Bool :=
  match s.data with
  | c0 :: c1 :: _ => c0 == '0' && c1 == 'x'
  | _ => false

/-- Model of `DID.parseFromId(Id.fromBigInt(userId)).string()` — an external
bijection from ids to DID strings; only its dependence on the id matters
to the claims. -/
def didFromId (n : Nat) : String := "did:iden3:billions:test:" ++ Nat.repr n

/-- The all-zero bytes32 the code compares the schema record id against. -/
def zeroSchemaId : String :=
  "0x0000000000000000000000000000000000000000000000000000000000000000"

/-- The success value of `checkAuthenticationAuthV2`: the subject id and the
DID string derived from it (the contract handles are not data). -/
structure AuthSuccess where
  userId : Nat
  userDid : String
  deriving DecidableEq, Repr

deriving instance DecidableEq for Except

/-- Result of a script phase: the returned value or thrown error, together
with the trace of network operations performed. -/
structure AuthOutcome where
  result : Except ScriptError AuthSuccess
  trace : List NetOp
  deriving DecidableEq, Repr

/-- Embedding of `checkAuthenticationAuthV2` (src/utils.ts and its inlined
copy in the create-review script).  Control flow follows the source:
1. reject the schema id unless it starts with "0x" and has length 66;
2. read the schema record, failing when its id is the zero bytes32;
3. read the default id type (logged only) and the id bound to the signer;
4. if the bound id is `0` or differs from the locally derived id:
   generate and submit an authentication proof (after checking the
   `authV2` auth method exists), re-query the bound id, fail if it is
   still `0`, and return the locally derived id;
5. otherwise keep the bound id, overwriting the local one only when their
   decimal string representations differ (the source's `toString()`
   comparison), and return it. -/
def checkAuthenticationAuthV2 (schemaId : String) (env : AuthEnv) : AuthOutcome :=
  if ¬ jsStartsWith0x schemaId ∨ schemaId.length ≠ 66 then
    ⟨.error .InvalidSchemaFormat, []⟩
  else
    let t1 : List NetOp := [.getSchema schemaId]
    if env.schemaRecordId = zeroSchemaId then
      ⟨.error (.SchemaNotFound schemaId), t1⟩
    else
      let t2 := t1 ++ [.getDefaultIdType, .getIdByAddress]
      let userId := env.localUserId
      let currentUserId := env.idByAddress
      if currentUserId = 0 ∨ currentUserId ≠ userId then
        if ¬ env.proofOk then
          ⟨.error .ProofGenerationFailed, t2⟩
        else
          let t3 := t2 ++ [.authMethodExistsCheck]
          if ¬ env.authMethodKnown then
            ⟨.error .AuthMethodUnavailable, t3⟩
          else
            let t4 := t3 ++ [.submitAuthResponse, .getIdByAddress]
            if env.idByAddressAfterAuth = 0 then
              ⟨.error .AuthenticationIneffective, t4⟩
            else
              ⟨.ok ⟨userId, didFromId userId⟩, t4⟩
      else
        let finalId :=
          if Nat.repr currentUserId ≠ Nat.repr userId then currentUserId else userId
        ⟨.ok ⟨finalId, didFromId finalId⟩, t2⟩

/-! ### Receipt scanning and the create-review main flow -/

/-- Result of `attestationRegistry.interface.parseLog` on one log: the
event name and positional arguments when the log decodes against the
registry ABI. -/
structure DecodedEvent where
  name : String
  args : List Nat
  deriving DecidableEq, Repr

/-- One entry of `receipt.logs`, carrying what `parseLog` yields on it:
`none` models both a thrown decode error and a `null` parse result (the
source treats the two identically via try/catch returning `false`). -/
structure Log where
  decoded : Option DecodedEvent
  deriving DecidableEq, Repr

/-- The predicate of the `receipt.logs.find(...)` scan: a log passes when
it decodes against the registry ABI and the decoded event is named
"AttestationRecorded"; a decode failure yields `false` (the source's
`catch { return false }`). -/
def decodesToRecorded (log : Log) : Bool :=
  match log.decoded with
  | some parsed => parsed.name == "AttestationRecorded"
  | none => false

/-- The `receipt.logs.find(...)` scan of the create-review and
create-ownership scripts: the first log that decodes against the registry
ABI to an event named "AttestationRecorded"; logs that fail to decode
make the predicate `false` and are skipped. -/
def findAttestationRecordedEvent (logs : List Log) : Option Log :=
  logs.find? decodesToRecorded

/-- Environment of the create-review `main` after argument parsing: what
`checkAuthenticationAuthV2` observes, plus the logs of the attestation
transaction's receipt. -/
structure MainEnv where
  auth : AuthEnv
  receiptLogs : List Log
  deriving DecidableEq, Repr

/-- Result of the create-review `main`: the extracted attestation id or
the thrown error, with the trace of network operations. -/
structure MainOutcome where
  result : Except ScriptError Nat
  trace : List NetOp
  deriving DecidableEq, Repr

/-- Embedding of the create-review script's `main` from authentication
onward: authenticate (any failure aborts before the attestation write),
submit `recordAttestation`, scan the receipt logs for the
"AttestationRecorded" event, and on a hit read the stored attestation
back and check its validity; with no matching event, throw instead of
returning. -/
def createReviewMain (schemaId : String) (env : MainEnv) : MainOutcome :=
  let auth := checkAuthenticationAuthV2 schemaId env.auth
  match auth.result with
  | .error e => ⟨.error e, auth.trace⟩
  | .ok _ =>
    let t := auth.trace ++ [.recordAttestation]
    match findAttestationRecordedEvent env.receiptLogs with
    | none => ⟨.error .RecordIdMissing, t⟩
    | some log =>
      let attestationId := (match log.decoded with
        | some parsed => parsed.args
        | none => []).getD 0 0
      ⟨.ok attestationId,
        t ++ [.getAttestationRead attestationId, .isValidRead attestationId]⟩

/-! ### Paginated retrieval (`getReviewsForAgent`) -/

/-- One response envelope of the attestation index API:
`{data: [...], totalPages: N}`. -/
structure PageResponse (α : Type) where
  data : List α
  totalPages : Nat
  deriving DecidableEq, Repr

/-- Embedding of `getReviewsForAgent`: the API is the function from page
number to response envelope.  Page 1 is fetched first; when its
`totalPages` exceeds 1, pages `2..totalPages` are fetched in order and
all `data` arrays are concatenated in fetch order. -/
def getReviewsForAgent {α : Type} (api : Nat → PageResponse α) : List α :=
  let page1 := api 1
  let totalPages := page1.totalPages
  let rest :=
    if 1 < totalPages then
      (List.range (totalPages - 1)).flatMap fun i => (api (i + 2)).data
    else []
  page1.data ++ rest

/-! ### Review aggregation -/

/-- The inner `{name, value}` of one decoded field descriptor; the value
is the number the source obtains via `Number(...)`. -/
structure NameValue where
  name : String
  value : ℚ
  deriving DecidableEq, Repr

/-- One entry of a parsed `decodedDataJson` list: `{value: {name, value}}`. -/
structure FieldEntry where
  value : NameValue
  deriving DecidableEq, Repr

/-- One attestation record as the listing script consumes it: the parsed
`decodedDataJson` field list and the attester DID. -/
structure Review where
  decodedDataJson : List FieldEntry
  fromDid : String
  deriving DecidableEq, Repr

/-- The `decodedDataJson.find(field => field.value.name === "stars")`
lookup; `none` models JavaScript `undefined`. -/
def findStars (fields : List FieldEntry) : Option FieldEntry :=
  fields.find? fun f => f.value.name == "stars"

/-- The comment-field lookup of the per-review print loop. -/
def findComment (fields : List FieldEntry) : Option FieldEntry :=
  fields.find? fun f => f.value.name == "comment"

/-- The stars value of one record when present, `0` otherwise (used only
to state sums; the source never substitutes a default). -/
def starOf (r : Review) : ℚ :=
  match findStars r.decodedDataJson with
  | some f => f.value.value
  | none => 0

/-- One step of the `reviews.reduce(...)` accumulation: dereferencing the
stars field of a record that has none throws a TypeError, modelled by the
absorbing `none`. -/
def totalStarsStep (acc : Option ℚ) (r : Review) : Option ℚ :=
  match acc with
  | none => none
  | some a =>
    match findStars r.decodedDataJson with
    | none => none
    | some f => some (a + f.value.value)

/-- The `totalStars` accumulation of the listing script's `main`:
`reviews.reduce((acc, attestation) => acc + stars(attestation), 0)`. -/
def totalStars (reviews : List Review) : Option ℚ :=
  reviews.foldl totalStarsStep (some 0)

/-- The average computation of the listing script:
`reviewCount > 0 ? totalStars / reviewCount : 0`. -/
def averageStars (reviews : List Review) : Option ℚ :=
  (totalStars reviews).map fun total =>
    if 0 < reviews.length then total / (reviews.length : ℚ) else 0

/-- Model of rendering a (non-negative) rating with `toFixed(2)`: the
value rounded to two decimal places. -/
def toFixedTwo (q : ℚ) : ℚ := round (q * 100) / 100

/-- Embedding of the listing script's `main` after the fetch: compute the
star total (throwing on a record without a "stars" field), derive the
average, then run the print loop, which dereferences both the stars and
the comment field of every review and throws when either is absent. -/
def listReviewsMain (reviews : List Review) : Except ScriptError (ℚ × Nat) :=
  match totalStars reviews with
  | none => .error .MissingReviewField
  | some total =>
    let count := reviews.length
    let avg := if 0 < count then total / (count : ℚ) else 0
    if reviews.all fun r =>
        (findStars r.decodedDataJson).isSome && (findComment r.decodedDataJson).isSome
    then .ok (avg, count)
    else .error .MissingReviewField

/-- The process exit code: `0` on success, `1` on any uncaught error
(the scripts' `main().then(exit 0).catch(exit 1)`). -/
def exitCode {α : Type} : Except ScriptError α → Nat
  | .ok _ => 0
  | .error _ => 1

/-! ### Proof preparation and packing (`walletSetup.ts`) -/

/-- The Groth16 `ProofData` shape consumed by `prepareZkpProof`: three
coordinate arrays of decimal strings. -/
structure ProofData where
  pi_a : List String
  pi_b : List (List String)
  pi_c : List String
  deriving DecidableEq, Repr

/-- The `{a, b, c}` structure returned by `prepareZkpProof`. -/
structure PreparedProof where
  a : List String
  b : List (List String)
  c : List String
  deriving DecidableEq, Repr

/-- Embedding of `prepareZkpProof`: `a` and `c` are `slice(0, 2)` of
`pi_a` and `pi_c`; each row of `b` swaps the two coordinates of the
corresponding `pi_b` row (`[pi_b[i][1], pi_b[i][0]]`).  Out-of-range
indexing (impossible on a well-formed Groth16 proof) yields `""`, the
stand-in for JavaScript `undefined`. -/
def prepareZkpProof (proof : ProofData) : PreparedProof :=
  { a := proof.pi_a.take 2
  , b := [ [(proof.pi_b.getD 0 []).getD 1 "", (proof.pi_b.getD 0 []).getD 0 ""]
         , [(proof.pi_b.getD 1 []).getD 1 "", (proof.pi_b.getD 1 []).getD 0 ""] ]
  , c := proof.pi_c.take 2 }

/-- A value handed to the ABI coder: a dynamic uint array, a fixed pair,
or a 2×2 matrix. -/
inductive AbiValue where
  | uintArr (xs : List String)
  | uintPair (xs : List String)
  | uintMatrix (xs : List (List String))
  deriving DecidableEq, Repr

/-- The application of `new ethers.AbiCoder().encode(types, values)`,
kept symbolic: the encoder is an external collaborator, so only which
types and values were passed to it is modelled. -/
structure AbiEncoded where
  types : List String
  values : List AbiValue
  deriving DecidableEq, Repr

/-- Symbolic ABI encoding: records the type list and value list passed
to the external coder. -/
def abiEncode (types : List String) (values : List AbiValue) : AbiEncoded :=
  ⟨types, values⟩

/-- Embedding of `packZkpProof`: ABI-encode the public inputs and the
three proof parts with the verifier's expected type layout. -/
def packZkpProof (inputs : List String) (a : List String)
    (b : List (List String)) (c : List String) : AbiEncoded :=
  abiEncode
    ["uint256[] inputs", "uint256[2]", "uint256[2][2]", "uint256[2]"]
    [.uintArr inputs, .uintPair a, .uintMatrix b, .uintPair c]

/-! ### Spec-side schema-shape definition (for claim C4)

The next definition follows the SPEC's words, not the source: "a 32-byte
hex value (64 hex characters plus prefix)".  It exists to be compared
with the source's validation, which checks only the prefix and the
length. -/

/-- A hexadecimal digit. -/
def isHexDigit (c : Char) : Bool :=
  c.isDigit || (decide ('a' ≤ c) && decide (c ≤ 'f')) || (decide ('A' ≤ c) && decide (c ≤ 'F'))

/-- The spec's 32-byte-hex-with-prefix shape: `0x` followed by exactly 64
hexadecimal characters. -/
def matchesSpecSchemaShape (s : String) : Bool :=
  jsStartsWith0x s && s.length == 66 && (s.data.drop 2).all isHexDigit

/-! ## Concrete fixtures used by witnesses and counterexamples -/

/-- A well-formed 32-byte schema id (66 characters, `0x` prefix). -/
def exampleSchemaId : String :=
  "0x1111111111111111111111111111111111111111111111111111111111111111"

/-- A 66-character string with the `0x` prefix whose tail is not
hexadecimal. -/
def badHexSchemaId : String :=
  "0xzzzzzzzzzzzzzzzzzzzzzzzzzzzzzzzzzzzzzzzzzzzzzzzzzzzzzzzzzzzzzzzz"

/-- Environment with an existing schema, local candidate id `1`, signer
already bound on-chain to the matching id `1`. -/
def envBoundMatching : AuthEnv :=
  ⟨exampleSchemaId, 1, 1, true, true, 1⟩

/-- Environment for a first run: schema exists, local candidate id `1`,
signer unbound (`0`), proof succeeds, post-authentication bound id `1`. -/
def envRunOne : AuthEnv :=
  ⟨exampleSchemaId, 1, 0, true, true, 1⟩

/-- Environment for a second run after `envRunOne`: the chain now binds
the signer to `1`, but the freshly created random identity derives the
different candidate id `2`. -/
def envRunTwo : AuthEnv :=
  ⟨exampleSchemaId, 2, 1, true, true, 2⟩

/-- Environment in which the chain already binds the signer to `B = 2`
while the local identity derives `A = 1`, and the authentication
transaction leaves the binding at `2`. -/
def envBoundMismatch : AuthEnv :=
  ⟨exampleSchemaId, 1, 2, true, true, 2⟩

/-! ## Claims -/

/-- **C4, counterexample.** `badHexSchemaId` does not match the spec's
32-byte-hex shape (its tail is not hexadecimal), yet
`checkAuthenticationAuthV2` does not fail with `InvalidSchemaFormat` on
it: the validation only checks the `0x` prefix and the length 66, and
the call proceeds to the network (its trace is non-empty). -/
theorem c4_nonhex_passes_counterexample :
    matchesSpecSchemaShape badHexSchemaId = false ∧
    (checkAuthenticationAuthV2 badHexSchemaId envBoundMatching).result ≠
      Except.error ScriptError.InvalidSchemaFormat ∧
    (checkAuthenticationAuthV2 badHexSchemaId envBoundMatching).trace ≠ [] := by
  decide

lemma checkAuth_invalid_format (s : String) (env : AuthEnv)
    (h : ¬ jsStartsWith0x s ∨ s.length ≠ 66) :
    checkAuthenticationAuthV2 s env =
      ⟨Except.error ScriptError.InvalidSchemaFormat, []⟩ := by
  unfold checkAuthenticationAuthV2
  rw [if_pos h]

/-- **C4, amended.** A schema id that does not start with `"0x"` or whose
length is not 66 makes `checkAuthenticationAuthV2` fail with
`InvalidSchemaFormat` before any network call (empty trace); the
hexadecimal content of the remaining 64 characters is not validated. -/
theorem c4_prefix_length_gate (s : String) (env : AuthEnv)
    (h : ¬ jsStartsWith0x s ∨ s.length ≠ 66) :
    checkAuthenticationAuthV2 s env =
      ⟨Except.error ScriptError.InvalidSchemaFormat, []⟩ :=
  checkAuth_invalid_format s env h

/-- **C4, witness.** The spec's own example `"0x1234"` is rejected with
`InvalidSchemaFormat` and an empty trace. -/
theorem c4_prefix_length_gate_witness :
    checkAuthenticationAuthV2 "0x1234" envBoundMatching =
      ⟨Except.error ScriptError.InvalidSchemaFormat, []⟩ :=
  c4_prefix_length_gate "0x1234" envBoundMatching (Or.inr (by decide))

/-- **C1.** With the chain already binding the signer to `B = 2 ≠ 0` and
the locally derived candidate `A = 1 ≠ B`, `checkAuthenticationAuthV2`
takes the re-authentication branch and returns the locally derived `A`,
not `B` — and not the on-chain id re-queried after the authentication
transaction either. -/
theorem c1_code_returns_local_id_at_bound_mismatch :
    envBoundMismatch.idByAddress = 2 ∧
    envBoundMismatch.idByAddress ≠ 0 ∧
    envBoundMismatch.localUserId = 1 ∧
    envBoundMismatch.localUserId ≠ envBoundMismatch.idByAddress ∧
    (checkAuthenticationAuthV2 exampleSchemaId envBoundMismatch).result =
      Except.ok ⟨1, didFromId 1⟩ ∧
    (1 : Nat) ≠ envBoundMismatch.idByAddress ∧
    (1 : Nat) ≠ envBoundMismatch.idByAddressAfterAuth := by
  decide

/-- **C8.** Whenever `checkAuthenticationAuthV2` returns successfully
without any write transaction in its trace, the signer was already bound
and the bound id equals the locally derived candidate — which forces the
`toString()` comparison of the reconciliation branch to be equal, so the
returned subject id is the locally derived candidate.  The
`userId = currentUserId` overwrite is therefore unreachable. -/
theorem c8_no_write_returns_local_id (s : String) (env : AuthEnv) (u : AuthSuccess)
    (hok : (checkAuthenticationAuthV2 s env).result = Except.ok u)
    (hnw : ∀ op ∈ (checkAuthenticationAuthV2 s env).trace, op.isWrite = false) :
    env.idByAddress ≠ 0 ∧ env.idByAddress = env.localUserId ∧
    Nat.repr env.idByAddress = Nat.repr env.localUserId ∧
    u.userId = env.localUserId := by
  simp only [checkAuthenticationAuthV2] at hok hnw
  split_ifs at hok hnw with h1 h2 h3 h4 h5 h6 h7 <;>
    simp only [] at hok hnw
  · have hw := hnw NetOp.submitAuthResponse (by simp)
    simp [NetOp.isWrite] at hw
  · push_neg at h3
    exact absurd (by rw [h3.2]) h7
  · push_neg at h3
    obtain ⟨hz, he⟩ := h3
    simp only [Except.ok.injEq] at hok
    exact ⟨hz, he, by rw [he], by rw [← hok]⟩

/-- **C8, witness.** With schema present, candidate id `1` and bound id
`1`, the call succeeds with no write and the conclusion holds. -/
theorem c8_no_write_returns_local_id_witness :
    envBoundMatching.idByAddress ≠ 0 ∧
    envBoundMatching.idByAddress = envBoundMatching.localUserId ∧
    Nat.repr envBoundMatching.idByAddress = Nat.repr envBoundMatching.localUserId ∧
    (AuthSuccess.mk 1 (didFromId 1)).userId = envBoundMatching.localUserId :=
  c8_no_write_returns_local_id exampleSchemaId envBoundMatching ⟨1, didFromId 1⟩
    (by decide) (by decide)

/-- **C2, counterexample.** Run 1 (`envRunOne`) authenticates and returns
subject id `1`, and the chain then binds the signer to `1`; run 2
(`envRunTwo`) observes that established binding, but its freshly created
random identity derives the different candidate `2`, so run 2 submits
another authentication write transaction and returns `2`, not the same
subject id. -/
theorem c2_second_run_writes_counterexample :
    (checkAuthenticationAuthV2 exampleSchemaId envRunOne).result =
      Except.ok ⟨1, didFromId 1⟩ ∧
    NetOp.submitAuthResponse ∈ (checkAuthenticationAuthV2 exampleSchemaId envRunOne).trace ∧
    envRunTwo.idByAddress = 1 ∧
    NetOp.submitAuthResponse ∈ (checkAuthenticationAuthV2 exampleSchemaId envRunTwo).trace ∧
    (checkAuthenticationAuthV2 exampleSchemaId envRunTwo).result =
      Except.ok ⟨2, didFromId 2⟩ ∧
    (⟨2, didFromId 2⟩ : AuthSuccess) ≠ ⟨1, didFromId 1⟩ := by
  decide

/-- **C2, amended.** Re-invocation is read-only and returns the same
subject id precisely when the second run's locally derived candidate
coincides with the established binding: if run 1 succeeded, the schema
still exists, and run 2 observes the binding `u1.userId ≠ 0` while also
deriving it locally, then run 2 performs no write transaction and
returns the same subject id. -/
theorem c2_idempotent_when_candidate_matches (s : String) (env1 env2 : AuthEnv)
    (u1 : AuthSuccess)
    (hrun1 : (checkAuthenticationAuthV2 s env1).result = Except.ok u1)
    (hschema : env2.schemaRecordId ≠ zeroSchemaId)
    (hbound : env2.idByAddress = u1.userId)
    (hnz : env2.idByAddress ≠ 0)
    (hcand : env2.localUserId = env2.idByAddress) :
    (∀ op ∈ (checkAuthenticationAuthV2 s env2).trace, op.isWrite = false) ∧
    (checkAuthenticationAuthV2 s env2).result =
      Except.ok ⟨u1.userId, didFromId u1.userId⟩ := by
  have hfmt : ¬ (¬ jsStartsWith0x s ∨ s.length ≠ 66) := by
    intro h
    rw [checkAuth_invalid_format s env1 h] at hrun1
    exact absurd hrun1 (by simp)
  have hbranch : ¬ (env2.idByAddress = 0 ∨ env2.idByAddress ≠ env2.localUserId) := by
    push_neg
    exact ⟨hnz, by rw [hcand]⟩
  simp only [checkAuthenticationAuthV2, if_neg hfmt, if_neg hschema, if_neg hbranch]
  rw [hcand]
  simp [NetOp.isWrite, ← hbound]

/-- **C2, witness.** A second run whose candidate equals the established
binding (`envBoundMatching` after `envRunOne`) reads only and returns
the same subject id `1`. -/
theorem c2_idempotent_when_candidate_matches_witness :
    (∀ op ∈ (checkAuthenticationAuthV2 exampleSchemaId envBoundMatching).trace,
        op.isWrite = false) ∧
    (checkAuthenticationAuthV2 exampleSchemaId envBoundMatching).result =
      Except.ok ⟨(AuthSuccess.mk 1 (didFromId 1)).userId,
        didFromId (AuthSuccess.mk 1 (didFromId 1)).userId⟩ :=
  c2_idempotent_when_candidate_matches exampleSchemaId envRunOne envBoundMatching
    ⟨1, didFromId 1⟩ (by decide) (by decide) (by decide) (by decide) (by decide)

/-- **C7.** When the authentication branch is taken, the proof is
accepted and submitted, but the re-queried on-chain id is still zero,
the create-review flow fails with `AuthenticationIneffective` and the
attestation write transaction is never attempted. -/
theorem c7_ineffective_auth_aborts (s : String) (env : MainEnv)
    (hfmt : jsStartsWith0x s = true) (hlen : s.length = 66)
    (hschema : env.auth.schemaRecordId ≠ zeroSchemaId)
    (hbranch : env.auth.idByAddress = 0 ∨ env.auth.idByAddress ≠ env.auth.localUserId)
    (hproof : env.auth.proofOk = true)
    (hmethod : env.auth.authMethodKnown = true)
    (hzero : env.auth.idByAddressAfterAuth = 0) :
    (createReviewMain s env).result = Except.error ScriptError.AuthenticationIneffective ∧
    NetOp.recordAttestation ∉ (createReviewMain s env).trace := by
  have hfmt2 : ¬ (¬ jsStartsWith0x s ∨ s.length ≠ 66) := by
    push_neg
    exact ⟨hfmt, hlen⟩
  have hauth : checkAuthenticationAuthV2 s env.auth =
      ⟨Except.error ScriptError.AuthenticationIneffective,
        [NetOp.getSchema s] ++ [NetOp.getDefaultIdType, NetOp.getIdByAddress] ++
          [NetOp.authMethodExistsCheck] ++
          [NetOp.submitAuthResponse, NetOp.getIdByAddress]⟩ := by
    simp only [checkAuthenticationAuthV2, if_neg hfmt2, if_neg hschema, if_pos hbranch,
      hproof, hmethod, if_pos hzero]
    simp
  simp [createReviewMain, hauth]

/-- **C7, witness.** Concrete instance: unbound signer, sound proof,
post-authentication id still zero. -/
theorem c7_ineffective_auth_aborts_witness :
    (createReviewMain exampleSchemaId
        ⟨⟨exampleSchemaId, 1, 0, true, true, 0⟩, []⟩).result =
      Except.error ScriptError.AuthenticationIneffective ∧
    NetOp.recordAttestation ∉
      (createReviewMain exampleSchemaId ⟨⟨exampleSchemaId, 1, 0, true, true, 0⟩, []⟩).trace :=
  c7_ineffective_auth_aborts exampleSchemaId ⟨⟨exampleSchemaId, 1, 0, true, true, 0⟩, []⟩
    (by decide) (by decide) (by decide) (by decide) (by decide) (by decide) (by decide)

/-- A receipt whose logs hold one undecodable entry and one event of a
different name — no "AttestationRecorded" event. -/
def mainEnvNoEvent : MainEnv :=
  ⟨envBoundMatching, [⟨none⟩, ⟨some ⟨"SomeOtherEvent", [7]⟩⟩]⟩

/-- **C3.** Receipt scanning skips logs that fail to decode against the
registry ABI (dropping an undecodable log never changes the scan's
result), and when no log decodes to an event named "AttestationRecorded"
the create-review flow fails with `RecordIdMissing` instead of returning
successfully. -/
theorem c3_missing_event_yields_record_id_missing :
    (∀ (bad : Log) (logs : List Log), bad.decoded = none →
        findAttestationRecordedEvent (bad :: logs) = findAttestationRecordedEvent logs) ∧
    (∀ (s : String) (env : MainEnv) (u : AuthSuccess),
        (checkAuthenticationAuthV2 s env.auth).result = Except.ok u →
        (∀ log ∈ env.receiptLogs, decodesToRecorded log = false) →
        (createReviewMain s env).result = Except.error ScriptError.RecordIdMissing) := by
  constructor
  · intro bad logs hbad
    unfold findAttestationRecordedEvent
    apply List.find?_cons_of_neg
    simp [decodesToRecorded, hbad]
  · intro s env u hok hnone
    have hfind : findAttestationRecordedEvent env.receiptLogs = none := by
      unfold findAttestationRecordedEvent
      rw [List.find?_eq_none]
      intro x hx
      simp [hnone x hx]
    simp [createReviewMain, hok, hfind]

/-- **C3, witness.** An undecodable log is skipped, and a receipt with
only an undecodable log and a differently named event fails with
`RecordIdMissing`. -/
theorem c3_missing_event_yields_record_id_missing_witness :
    findAttestationRecordedEvent (⟨none⟩ :: mainEnvNoEvent.receiptLogs) =
      findAttestationRecordedEvent mainEnvNoEvent.receiptLogs ∧
    (createReviewMain exampleSchemaId mainEnvNoEvent).result =
      Except.error ScriptError.RecordIdMissing :=
  ⟨c3_missing_event_yields_record_id_missing.1 ⟨none⟩ mainEnvNoEvent.receiptLogs rfl,
   c3_missing_event_yields_record_id_missing.2 exampleSchemaId mainEnvNoEvent
     ⟨1, didFromId 1⟩ (by decide) (by decide)⟩

/-- The mock index API of the spec's pagination property: three pages
carrying 20, 20 and 7 items. -/
def mockApi47 : Nat → PageResponse Nat := fun page =>
  if page = 1 then ⟨List.range 20, 3⟩
  else if page = 2 then ⟨(List.range 20).map (· + 20), 3⟩
  else if page = 3 then ⟨(List.range 7).map (· + 40), 3⟩
  else ⟨[], 3⟩

/-- **C5.** `getReviewsForAgent` drains the pagination: whenever page 1
reports at least one page, the result is the concatenation of the `data`
arrays of pages `1..totalPages` in page order; on the three-page mock
with 20/20/7 items it returns exactly the 47 items in page order. -/
theorem c5_pagination_drains :
    (∀ {α : Type} (api : Nat → PageResponse α), 1 ≤ (api 1).totalPages →
        getReviewsForAgent api =
          (List.range (api 1).totalPages).flatMap fun i => (api (i + 1)).data) ∧
    getReviewsForAgent mockApi47 = List.range 47 ∧
    (getReviewsForAgent mockApi47).length = 47 := by
  refine ⟨?_, by decide, by decide⟩
  intro α api h
  simp only [getReviewsForAgent]
  rcases Nat.exists_eq_add_of_le h with ⟨n, hn⟩
  rcases n with _ | m
  · have h1 : (api 1).totalPages = 1 := by omega
    rw [h1]
    rw [show List.range 1 = [0] from rfl, List.flatMap_cons]
    simp
  · have h1 : 1 < (api 1).totalPages := by omega
    rw [if_pos h1]
    have h2 : (api 1).totalPages = (m + 1) + 1 := by omega
    rw [h2, List.range_succ_eq_map, List.flatMap_cons, List.flatMap_map,
      show (m + 1) + 1 - 1 = m + 1 by omega]

/-- **C5, witness.** The general page-order statement instantiated on
the 47-item mock API. -/
theorem c5_pagination_drains_witness :
    getReviewsForAgent mockApi47 =
      (List.range (mockApi47 1).totalPages).flatMap fun i => (mockApi47 (i + 1)).data :=
  c5_pagination_drains.1 mockApi47 (by decide)

/-- A review record carrying a "stars" and a "comment" field. -/
def reviewWith (stars : ℚ) : Review :=
  ⟨[⟨⟨"stars", stars⟩⟩, ⟨⟨"comment", 0⟩⟩], "did:example:attester"⟩

/-- The spec's aggregation example: reviews with stars 5, 4 and 5. -/
def threeReviews : List Review := [reviewWith 5, reviewWith 4, reviewWith 5]

/-- A review record with no "stars" field. -/
def reviewNoStars : Review := ⟨[⟨⟨"comment", 0⟩⟩], "did:example:bad"⟩

lemma foldl_totalStarsStep_none (l : List Review) :
    l.foldl totalStarsStep none = none := by
  induction l with
  | nil => rfl
  | cons hd tl ih => rw [List.foldl_cons]; exact ih

lemma foldl_totalStarsStep_all_present (l : List Review) (a : ℚ)
    (h : ∀ r ∈ l, (findStars r.decodedDataJson).isSome) :
    l.foldl totalStarsStep (some a) = some (a + (l.map starOf).sum) := by
  induction l generalizing a with
  | nil => simp
  | cons hd tl ih =>
    obtain ⟨f, hf⟩ := Option.isSome_iff_exists.mp (h hd (by simp))
    have hstep : totalStarsStep (some a) hd = some (a + f.value.value) := by
      simp [totalStarsStep, hf]
    have hstar : starOf hd = f.value.value := by simp [starOf, hf]
    rw [List.foldl_cons, hstep, ih _ (fun r hr => h r (by simp [hr]))]
    simp [hstar]
    ring

lemma foldl_totalStarsStep_missing (l : List Review) (a : ℚ)
    (h : ∃ r ∈ l, findStars r.decodedDataJson = none) :
    l.foldl totalStarsStep (some a) = none := by
  induction l generalizing a with
  | nil => obtain ⟨r, hr, _⟩ := h; cases hr
  | cons hd tl ih =>
    obtain ⟨r, hr, hmiss⟩ := h
    rcases List.mem_cons.mp hr with heq | htl
    · subst heq
      rw [List.foldl_cons,
        show totalStarsStep (some a) r = none by simp [totalStarsStep, hmiss],
        foldl_totalStarsStep_none]
    · rw [List.foldl_cons]
      cases hstep : totalStarsStep (some a) hd with
      | none => rw [foldl_totalStarsStep_none]
      | some a2 => exact ih a2 ⟨r, htl, hmiss⟩

/-- **C6.** Over any fetched sequence in which every record carries a
"stars" field, the computed average equals the sum of the stars values
divided by the record count, and equals `0` for zero records; for stars
`[5, 4, 5]` the average is `14/3`, rendered `4.67` at two decimals, and
for zero records it is `0`, rendered `0.00`. -/
theorem c6_average_rating :
    (∀ reviews : List Review,
        (∀ r ∈ reviews, (findStars r.decodedDataJson).isSome) →
        averageStars reviews =
          some (if 0 < reviews.length
            then ((reviews.map starOf).sum) / (reviews.length : ℚ) else 0)) ∧
    averageStars threeReviews = some (14 / 3) ∧
    toFixedTwo (14 / 3) = 467 / 100 ∧
    averageStars ([] : List Review) = some 0 ∧
    toFixedTwo 0 = 0 := by
  have hgen : ∀ reviews : List Review,
      (∀ r ∈ reviews, (findStars r.decodedDataJson).isSome) →
      averageStars reviews =
        some (if 0 < reviews.length
          then ((reviews.map starOf).sum) / (reviews.length : ℚ) else 0) := by
    intro reviews h
    unfold averageStars totalStars
    rw [foldl_totalStarsStep_all_present reviews 0 h]
    simp
  refine ⟨hgen, ?_, by norm_num [toFixedTwo, round_eq], ?_,
    by norm_num [toFixedTwo, round_eq]⟩
  · rw [hgen threeReviews (by decide)]
    norm_num [threeReviews, reviewWith, starOf, findStars]
  · rw [hgen [] (by simp)]
    simp

/-- **C6, witness.** The general sum/count statement instantiated on the
three-review example. -/
theorem c6_average_rating_witness :
    averageStars threeReviews =
      some (if 0 < threeReviews.length
        then ((threeReviews.map starOf).sum) / (threeReviews.length : ℚ) else 0) :=
  c6_average_rating.1 threeReviews (by decide)

/-- **C9.** If any fetched record's decoded field list has no field named
"stars", the aggregation throws — the star total is undefined, the whole
listing invocation fails, and the process exit code is `1`, not `0`:
the record is neither skipped nor counted as zero. -/
theorem c9_missing_stars_field_fails (reviews : List Review) (r : Review)
    (hmem : r ∈ reviews) (hmiss : findStars r.decodedDataJson = none) :
    totalStars reviews = none ∧
    listReviewsMain reviews = Except.error ScriptError.MissingReviewField ∧
    exitCode (listReviewsMain reviews) = 1 := by
  have ht : totalStars reviews = none :=
    foldl_totalStarsStep_missing reviews 0 ⟨r, hmem, hmiss⟩
  refine ⟨ht, ?_, ?_⟩ <;> simp [listReviewsMain, ht, exitCode]

/-- **C9, witness.** A listing with one well-formed review and one
review lacking the "stars" field fails with exit code 1. -/
theorem c9_missing_stars_field_fails_witness :
    totalStars [reviewWith 5, reviewNoStars] = none ∧
    listReviewsMain [reviewWith 5, reviewNoStars] =
      Except.error ScriptError.MissingReviewField ∧
    exitCode (listReviewsMain [reviewWith 5, reviewNoStars]) = 1 :=
  c9_missing_stars_field_fails [reviewWith 5, reviewNoStars] reviewNoStars
    (by decide) (by decide)

lemma take_two_reverse (l : List String) (h : 2 ≤ l.length) :
    (l.take 2).reverse = [l.getD 1 "", l.getD 0 ""] := by
  rcases l with _ | ⟨x, _ | ⟨y, t⟩⟩
  · simp at h
  · simp at h
  · rfl

/-- **C10.** `prepareZkpProof` keeps the first two elements of `pi_a` and
`pi_c` and swaps each coordinate pair of the first two `pi_b` rows, and
`packZkpProof` ABI-encodes the tuple (public signals, a, b, c) with the
types `uint256[]`, `uint256[2]`, `uint256[2][2]`, `uint256[2]`. -/
theorem c10_zkp_proof_packing :
    (∀ proof : ProofData,
        2 ≤ (proof.pi_b.getD 0 []).length → 2 ≤ (proof.pi_b.getD 1 []).length →
        (prepareZkpProof proof).a = proof.pi_a.take 2 ∧
        (prepareZkpProof proof).c = proof.pi_c.take 2 ∧
        (prepareZkpProof proof).b =
          [((proof.pi_b.getD 0 []).take 2).reverse,
           ((proof.pi_b.getD 1 []).take 2).reverse]) ∧
    (∀ (inputs a : List String) (b : List (List String)) (c : List String),
        packZkpProof inputs a b c =
          abiEncode ["uint256[] inputs", "uint256[2]", "uint256[2][2]", "uint256[2]"]
            [AbiValue.uintArr inputs, AbiValue.uintPair a, AbiValue.uintMatrix b,
             AbiValue.uintPair c]) := by
  constructor
  · intro proof h0 h1
    exact ⟨rfl, rfl, by rw [take_two_reverse _ h0, take_two_reverse _ h1]; rfl⟩
  · intro inputs a b c
    rfl

/-- A well-formed Groth16 proof object. -/
def exampleProofData : ProofData :=
  ⟨["a0", "a1", "a2"],
   [["b00", "b01"], ["b10", "b11"], ["b20", "b21"]],
   ["c0", "c1", "c2"]⟩

/-- **C10, witness.** The packing statement instantiated on a concrete
well-formed Groth16 proof object. -/
theorem c10_zkp_proof_packing_witness :
    (prepareZkpProof exampleProofData).a = exampleProofData.pi_a.take 2 ∧
    (prepareZkpProof exampleProofData).c = exampleProofData.pi_c.take 2 ∧
    (prepareZkpProof exampleProofData).b =
      [((exampleProofData.pi_b.getD 0 []).take 2).reverse,
       ((exampleProofData.pi_b.getD 1 []).take 2).reverse] :=
  c10_zkp_proof_packing.1 exampleProofData (by decide) (by decide)

end Billions
